import Mathlib

/-!
# Verification of the overmind interception/policy pipeline

Shallow embedding of the request/response interception layer of
`overmind-core/overmind-python`:

* `src/overmind/clients/overmind_client.py` — policy runner and layer factory,
* `src/overmind/clients/openai.py` — OpenAI client wrapper and endpoint handlers,
* `src/overmind/clients/anthropic.py` — Anthropic client wrapper and messages handler,
* `src/overmind/clients/google.py` — Google generate-content wrapper,
* `src/overmind/tracer.py` — trace decorator.

JSON bodies are modelled as `JVal` values whose objects are insertion-ordered
association lists (Python `dict` preserves insertion order and cannot hold a
duplicate key).  Python exceptions are modelled by `PyErr` and fallible code
returns `Except PyErr _`.  The remote policy-execution service and the
OpenTelemetry span sink are external collaborators: the remote service is a
parameter (`remote`), and a span context manager is modelled as a list of
`SpanEvent`s — the `with` block emits a start event on entry and an end event on
every exit path, while attribute / status / exception calls that appear
explicitly in the source are emitted as their own events.
-/

namespace Overmind

/-- JSON-like values: the payload type of request and response bodies.
Objects are insertion-ordered key/value lists, as Python dicts. -/
inductive JVal where
  | null
  | bool (b : Bool)
  | num (n : Int)
  | str (s : String)
  | arr (xs : List JVal)
  | obj (kvs : List (String × JVal))

mutual

/-- Decidable equality of JSON values (the nested inductive defeats the
automatic deriving, so it is spelt out). -/
def JVal.decEq : (a b : JVal) → Decidable (a = b)
  | .null, .null => .isTrue rfl
  | .null, .bool _ => .isFalse (fun h => nomatch h)
  | .null, .num _ => .isFalse (fun h => nomatch h)
  | .null, .str _ => .isFalse (fun h => nomatch h)
  | .null, .arr _ => .isFalse (fun h => nomatch h)
  | .null, .obj _ => .isFalse (fun h => nomatch h)
  | .bool _, .null => .isFalse (fun h => nomatch h)
  | .bool a, .bool b =>
    if h : a = b then .isTrue (h ▸ rfl) else .isFalse (fun hh => by cases hh; exact h rfl)
  | .bool _, .num _ => .isFalse (fun h => nomatch h)
  | .bool _, .str _ => .isFalse (fun h => nomatch h)
  | .bool _, .arr _ => .isFalse (fun h => nomatch h)
  | .bool _, .obj _ => .isFalse (fun h => nomatch h)
  | .num _, .null => .isFalse (fun h => nomatch h)
  | .num _, .bool _ => .isFalse (fun h => nomatch h)
  | .num a, .num b =>
    if h : a = b then .isTrue (h ▸ rfl) else .isFalse (fun hh => by cases hh; exact h rfl)
  | .num _, .str _ => .isFalse (fun h => nomatch h)
  | .num _, .arr _ => .isFalse (fun h => nomatch h)
  | .num _, .obj _ => .isFalse (fun h => nomatch h)
  | .str _, .null => .isFalse (fun h => nomatch h)
  | .str _, .bool _ => .isFalse (fun h => nomatch h)
  | .str _, .num _ => .isFalse (fun h => nomatch h)
  | .str a, .str b =>
    if h : a = b then .isTrue (h ▸ rfl) else .isFalse (fun hh => by cases hh; exact h rfl)
  | .str _, .arr _ => .isFalse (fun h => nomatch h)
  | .str _, .obj _ => .isFalse (fun h => nomatch h)
  | .arr _, .null => .isFalse (fun h => nomatch h)
  | .arr _, .bool _ => .isFalse (fun h => nomatch h)
  | .arr _, .num _ => .isFalse (fun h => nomatch h)
  | .arr _, .str _ => .isFalse (fun h => nomatch h)
  | .arr xs, .arr ys =>
    match JVal.decEqList xs ys with
    | .isTrue h => .isTrue (h ▸ rfl)
    | .isFalse h => .isFalse (fun hh => by cases hh; exact h rfl)
  | .arr _, .obj _ => .isFalse (fun h => nomatch h)
  | .obj _, .null => .isFalse (fun h => nomatch h)
  | .obj _, .bool _ => .isFalse (fun h => nomatch h)
  | .obj _, .num _ => .isFalse (fun h => nomatch h)
  | .obj _, .str _ => .isFalse (fun h => nomatch h)
  | .obj _, .arr _ => .isFalse (fun h => nomatch h)
  | .obj xs, .obj ys =>
    match JVal.decEqObj xs ys with
    | .isTrue h => .isTrue (h ▸ rfl)
    | .isFalse h => .isFalse (fun hh => by cases hh; exact h rfl)

def JVal.decEqList : (xs ys : List JVal) → Decidable (xs = ys)
  | [], [] => .isTrue rfl
  | [], _ :: _ => .isFalse (fun h => nomatch h)
  | _ :: _, [] => .isFalse (fun h => nomatch h)
  | x :: xs, y :: ys =>
    match JVal.decEq x y with
    | .isFalse h => .isFalse (fun hh => by cases hh; exact h rfl)
    | .isTrue h1 =>
      match JVal.decEqList xs ys with
      | .isTrue h2 => .isTrue (by rw [h1, h2])
      | .isFalse h2 => .isFalse (fun hh => by cases hh; exact h2 rfl)

def JVal.decEqObj : (xs ys : List (String × JVal)) → Decidable (xs = ys)
  | [], [] => .isTrue rfl
  | [], _ :: _ => .isFalse (fun h => nomatch h)
  | _ :: _, [] => .isFalse (fun h => nomatch h)
  | (k, v) :: xs, (k', v') :: ys =>
    if hk : k = k' then
      match JVal.decEq v v' with
      | .isFalse h => .isFalse (fun hh => by cases hh; exact h rfl)
      | .isTrue h1 =>
        match JVal.decEqObj xs ys with
        | .isTrue h2 => .isTrue (by rw [hk, h1, h2])
        | .isFalse h2 => .isFalse (fun hh => by cases hh; exact h2 rfl)
    else .isFalse (fun hh => by cases hh; exact hk rfl)

end

instance : DecidableEq JVal := JVal.decEq

/-- Python exceptions raised by the embedded code paths. -/
inductive PyErr where
  | attributeError
  | keyError (k : String)
  | indexError
  | typeError
  | valueError (msg : String)
  | jsonDecodeError
  | remoteError (msg : String)
deriving DecidableEq

/-- `d.get(k)` / `d.get(k, None)` on an insertion-ordered dict. -/
def getKey : List (String × JVal) → String → Option JVal
  | [], _ => none
  | (k', v) :: rest, k => if k' = k then some v else getKey rest k

/-- Removing a key from a dict (the destructive part of `d.pop(k, None)`);
all other entries keep their relative order. -/
def removeKey : List (String × JVal) → String → List (String × JVal)
  | [], _ => []
  | (k', v) :: rest, k =>
    if k' = k then removeKey rest k else (k', v) :: removeKey rest k

/-- `d.pop(k, None)`: the popped value (if any) and the remaining dict. -/
def popKey (kvs : List (String × JVal)) (k : String) :
    Option JVal × List (String × JVal) :=
  (getKey kvs k, removeKey kvs k)

/-- `d[k] = v`: update in place when the key exists, append otherwise. -/
def setKey : List (String × JVal) → String → JVal → List (String × JVal)
  | [], k, v => [(k, v)]
  | (k', v') :: rest, k, v =>
    if k' = k then (k, v) :: rest else (k', v') :: setKey rest k v

/-- Python truthiness of a JSON value (`bool(v)`). -/
def jtruthy : JVal → Bool
  | .null => false
  | .bool b => b
  | .num n => n != 0
  | .str s => s != ""
  | .arr xs => !xs.isEmpty
  | .obj kvs => !kvs.isEmpty

/-- `v[k]` subscription: `KeyError` on a dict without the key, `TypeError`
when the value is not a dict. -/
def jGetItem (v : JVal) (k : String) : Except PyErr JVal :=
  match v with
  | .obj kvs =>
    match getKey kvs k with
    | some x => .ok x
    | none => .error (.keyError k)
  | _ => .error .typeError

/-- `xs[-1]` on a Python list: `IndexError` when empty. -/
def lastItem (xs : List JVal) : Except PyErr JVal :=
  match xs.getLast? with
  | some x => .ok x
  | none => .error .indexError

mutual

/-- `repr(v)` of a JSON value, used inside container printing. -/
def pyRepr : JVal → String
  | .null => "None"
  | .bool b => if b then "True" else "False"
  | .num n => toString n
  | .str s => "'" ++ s ++ "'"
  | .arr xs => "[" ++ pyReprList xs ++ "]"
  | .obj kvs => "\x7b" ++ pyReprObj kvs ++ "\x7d"

def pyReprList : List JVal → String
  | [] => ""
  | [x] => pyRepr x
  | x :: xs => pyRepr x ++ ", " ++ pyReprList xs

def pyReprObj : List (String × JVal) → String
  | [] => ""
  | [(k, v)] => "'" ++ k ++ "': " ++ pyRepr v
  | (k, v) :: kvs => "'" ++ k ++ "': " ++ pyRepr v ++ ", " ++ pyReprObj kvs

end

/-- `str(v)` of a JSON value: a plain string prints itself, anything else
prints as its repr. -/
def pyStr : JVal → String
  | .str s => s
  | v => pyRepr v

/-- `str(x)` of an optional value (`None` prints as `"None"`). -/
def pyStrOpt : Option JVal → String
  | none => "None"
  | some v => pyStr v

/-! ## Policy runner (`overmind_client.py`) -/

/-- Result of one remote policy execution (`layer.run`): `processed_data`
(possibly `None` = no change), `overall_policy_outcome`, `policy_results`. -/
structure Verdict where
  processed_data : Option JVal
  overall_policy_outcome : String
  policy_results : String
deriving DecidableEq

/-- The behaviour of the remote policy-execution service: given a policy name
and the input payload, either a verdict or a raised error.  External
collaborator, hence a parameter of every definition that calls it. -/
def Remote := String → JVal → Except PyErr Verdict

/-- The four registered built-in policy names of `get_layer`. -/
def builtinPolicies : List String :=
  ["anonymize_pii", "reject_irrelevant_answer", "reject_prompt_injection",
   "reject_llm_judge_with_criteria"]

/-- `get_layer` — the layer factory.  The concrete layer classes live in the
`overmind.layers` module (outside the interception sources); a resolved layer
is represented by its validated name.  An unrecognised name raises
`ValueError("Invalid layer name: ...")`. -/
def get_layer (name : String) : Except PyErr String :=
  if name = "anonymize_pii" then .ok name
  else if name = "reject_irrelevant_answer" then .ok name
  else if name = "reject_prompt_injection" then .ok name
  else if name = "reject_llm_judge_with_criteria" then .ok name
  else .error (.valueError ("Invalid layer name: " ++ name))

/-- One event observed by the span sink. -/
inductive SpanEvent where
  | spanStart (name : String)
  | setAttr (key value : String)
  | recordException (e : PyErr)
  | setStatusOk
  | setStatusError (msg : String)
  | spanEnd (name : String)
deriving DecidableEq

/-- A network call to the remote policy service: policy name and input payload. -/
abbrev RemoteCall := String × JVal

/-- `OvermindClient.run_layer`: resolve the layer (raising before any span or
network activity on an unknown name), open the span
`execute_policy_{policy}`, call `layer.run`, and set the four attributes.  An
error from the remote call escapes the `with` block, so the span is closed
with no attribute recorded. -/
def run_layer (remote : Remote) (policy : String) (input_data : JVal) :
    Except PyErr Verdict × List SpanEvent × List RemoteCall :=
  match get_layer policy with
  | .error e => (.error e, [], [])
  | .ok _layer =>
    let name := "execute_policy_" ++ policy
    match remote policy input_data with
    | .error e =>
      (.error e, [.spanStart name, .spanEnd name], [(policy, input_data)])
    | .ok v =>
      (.ok v,
       [.spanStart name,
        .setAttr "inputs" (pyStr input_data),
        .setAttr "outputs" (pyStrOpt v.processed_data),
        .setAttr "policy_outcome" v.overall_policy_outcome,
        .setAttr "policy_results" v.policy_results,
        .spanEnd name],
       [(policy, input_data)])

/-- `res.processed_data or original`: keep the processed value when it is
truthy, otherwise keep the original. -/
def orElseTruthy (processed : Option JVal) (original : JVal) : JVal :=
  match processed with
  | some w => if jtruthy w then w else original
  | none => original

/-- A remote service that always succeeds, with `exec` giving each policy's
`processed_data`; used to state the pipeline claims. -/
def pureRemote (exec : String → JVal → Option JVal) : Remote :=
  fun p v => .ok ⟨exec p v, "pass", ""⟩

/-- The effect of a single successful policy step on the current text. -/
def stepPure (exec : String → JVal → Option JVal) (p : String) (v : JVal) : JVal :=
  orElseTruthy (exec p v) v

/-- Sequential policy chain on one value: the loop body of
`_run_input_policies_messages` (and of the Google string path), where each
iteration feeds the previous iteration's result to the next policy. -/
def run_input_chain (remote : Remote) (policies : List String) (t : JVal) :
    Except PyErr JVal × List SpanEvent × List RemoteCall :=
  match policies with
  | [] => (.ok t, [], [])
  | p :: rest =>
    let (r, sp, rc) := run_layer remote p t
    match r with
    | .error e => (.error e, sp, rc)
    | .ok v =>
      let t' := orElseTruthy v.processed_data t
      let (r', sp', rc') := run_input_chain remote rest t'
      (r', sp ++ sp', rc ++ rc')

/-- `BaseHandler._run_input_policies_messages`: iterates the policies, each
time reading `inputs[-1]`, running the policy, and writing the result back to
`inputs[-1]` (falling back to the previous value when `processed_data` is
falsy).  With a nonempty policy list and an empty `inputs`, the first
`inputs[-1]` raises `IndexError` before any policy runs. -/
def run_input_policies_messages (remote : Remote) (inputs : List JVal)
    (input_policies : List String) :
    Except PyErr (List JVal) × List SpanEvent × List RemoteCall :=
  match input_policies with
  | [] => (.ok inputs, [], [])
  | _ =>
    match inputs.getLast? with
    | none => (.error .indexError, [], [])
    | some t =>
      let (r, sp, rc) := run_input_chain remote input_policies t
      (r.map (fun t' => inputs.dropLast ++ [t']), sp, rc)

/-- The pure view of the policy chain: fold of `stepPure` over the list. -/
def chainPure (exec : String → JVal → Option JVal) (policies : List String)
    (t : JVal) : JVal :=
  policies.foldl (fun acc p => stepPure exec p acc) t

/-! ## OpenAI endpoint handlers (`openai.py`) -/

/-- The handler variants: the four `OpenAI._get_handler` can return, plus the
Anthropic `messagesHandler`. -/
inductive HandlerKind where
  | responses
  | chatCompletion
  | audioSpeech
  | responsesCompact
  | messages
deriving DecidableEq

/-- `OpenAI._get_handler`: path-based handler resolution, in source order. -/
def openai_get_handler (path : String) : Option HandlerKind :=
  if path = "/v1/responses" then some .responses
  else if path = "/v1/chat/completions" then some .chatCompletion
  else if path = "/v1/audio/speech" then some .audioSpeech
  else if path = "/v1/responses/compact" then some .responsesCompact
  else none

/-- `chatCompletionHandler._pre_json`: pop `messages`, read the last
message's `content` and `role`, rebuild the last message as a fresh dict with
only `role` and the policy-chain output as `content`, and write `messages`
back (the key was popped, so it is re-inserted at the end of the body).
Subscripting a popped `None` or a non-list `messages` value raises; the model
collapses those unexercised shapes to `TypeError`. -/
def chat_pre_json (remote : Remote) (json_content : List (String × JVal))
    (input_policies : List String) :
    Except PyErr (List (String × JVal)) × List SpanEvent × List RemoteCall :=
  let (msgs?, body1) := popKey json_content "messages"
  match msgs? with
  | some (.arr msgs) =>
    (match lastItem msgs with
     | .error e => (.error e, [], [])
     | .ok last =>
       match jGetItem last "content" with
       | .error e => (.error e, [], [])
       | .ok original_message =>
         match jGetItem last "role" with
         | .error e => (.error e, [], [])
         | .ok role =>
           let (r, sp, rc) :=
             run_input_policies_messages remote [original_message] input_policies
           match r with
           | .error e => (.error e, sp, rc)
           | .ok outs =>
             match outs.getLast? with
             | none => (.error .indexError, sp, rc)
             | some content' =>
               let newLast := JVal.obj [("role", role), ("content", content')]
               (.ok (setKey body1 "messages" (.arr (msgs.dropLast ++ [newLast]))),
                sp, rc))
  | _ => (.error .typeError, [], [])

/-- `responsesHandler.pre_request`: pop `input` (defaulting to `None`), run
the policy chain on the singleton list of it, and write `input` back (the key
was popped, so it is re-inserted at the end of the body). -/
def responses_pre (remote : Remote) (json_content : List (String × JVal))
    (input_policies : List String) :
    Except PyErr (List (String × JVal)) × List SpanEvent × List RemoteCall :=
  let (inp?, body1) := popKey json_content "input"
  let inp := inp?.getD .null
  let (r, sp, rc) := run_input_policies_messages remote [inp] input_policies
  match r with
  | .error e => (.error e, sp, rc)
  | .ok outs =>
    match outs.getLast? with
    | none => (.error .indexError, sp, rc)
    | some modified => (.ok (setKey body1 "input" modified), sp, rc)

/-! ## Anthropic wrapper and messages handler (`anthropic.py`) -/

/-- The per-block loop of `messagesHandler.pre_request` for list-shaped
content: each dict block whose `type` is `"text"` has its `text` run through
the full policy chain independently (starting from that block's own text);
every other block is left untouched. -/
def anthropic_blocks_run (remote : Remote) (input_policies : List String) :
    List JVal → Except PyErr (List JVal) × List SpanEvent × List RemoteCall
  | [] => (.ok [], [], [])
  | block :: rest =>
    match block with
    | .obj kvs =>
      if (getKey kvs "type").getD .null = .str "text" then
        match getKey kvs "text" with
        | none => (.error (.keyError "text"), [], [])
        | some text =>
          let (r, sp, rc) :=
            run_input_policies_messages remote [text] input_policies
          match r with
          | .error e => (.error e, sp, rc)
          | .ok outs =>
            match outs.getLast? with
            | none => (.error .indexError, sp, rc)
            | some modified =>
              let (r', sp', rc') := anthropic_blocks_run remote input_policies rest
              (r'.map (fun rest' => .obj (setKey kvs "text" modified) :: rest'),
               sp ++ sp', rc ++ rc')
      else
        let (r', sp', rc') := anthropic_blocks_run remote input_policies rest
        (r'.map (fun rest' => .obj kvs :: rest'), sp', rc')
    | other =>
      let (r', sp', rc') := anthropic_blocks_run remote input_policies rest
      (r'.map (fun rest' => other :: rest'), sp', rc')

/-- `messagesHandler.post_request`: the `{"question": ...}` metadata — the
last message's content when it is a string, the space-joined texts of its
text-typed blocks when it is a list, `""` otherwise. -/
def anthropic_question (json : List (String × JVal)) : JVal :=
  let messages := match (getKey json "messages").getD (.arr []) with
    | .arr ms => ms
    | _ => []
  let q : String :=
    match messages.getLast? with
    | none => ""
    | some (.obj lastKvs) =>
      (match (getKey lastKvs "content").getD (.str "") with
       | .str s => s
       | .arr blocks =>
         String.intercalate " " (blocks.filterMap (fun b =>
           match b with
           | .obj kvs =>
             if (getKey kvs "type").getD .null = .str "text" then
               match (getKey kvs "text").getD (.str "") with
               | .str t => some t
               | _ => none
             else none
           | _ => none))
       | _ => "")
    | some _ => ""
  .obj [("question", .str q)]

/-- `messagesHandler.pre_request`: when `messages` and the policy list are
both nonempty, rewrite the last message — a string content is replaced by the
chain output with every other key of the message preserved (`{**last_message,
"content": modified}`), a list content has each text block rewritten in
place. -/
def anthropic_messages_pre (remote : Remote) (json_content : List (String × JVal))
    (input_policies : List String) :
    Except PyErr (List (String × JVal)) × List SpanEvent × List RemoteCall :=
  let messages := match (getKey json_content "messages").getD (.arr []) with
    | .arr ms => ms
    | _ => []
  if messages.isEmpty || input_policies.isEmpty then (.ok json_content, [], [])
  else
    match messages.getLast? with
    | none => (.ok json_content, [], [])
    | some (.obj lastKvs) =>
      let content := (getKey lastKvs "content").getD (.str "")
      match content with
      | .str s =>
        let (r, sp, rc) :=
          run_input_policies_messages remote [.str s] input_policies
        (match r with
         | .error e => (.error e, sp, rc)
         | .ok outs =>
           match outs.getLast? with
           | none => (.error .indexError, sp, rc)
           | some modified =>
             let newLast := JVal.obj (setKey lastKvs "content" modified)
             let messages' := messages.dropLast ++ [newLast]
             (.ok (setKey json_content "messages" (.arr messages')), sp, rc))
      | .arr blocks =>
        let (r, sp, rc) := anthropic_blocks_run remote input_policies blocks
        (match r with
         | .error e => (.error e, sp, rc)
         | .ok blocks' =>
           let newLast := JVal.obj (setKey lastKvs "content" (.arr blocks'))
           let messages' := messages.dropLast ++ [newLast]
           (.ok (setKey json_content "messages" (.arr messages')), sp, rc))
      | _ => (.ok (setKey json_content "messages" (.arr messages)), [], [])
    | some _ => (.error .attributeError, [], [])

/-- `handler.pre_request` dispatch.  The chat-completion and responses
handlers rewrite the body; the audio-speech and responses-compact handlers
(`doNothingHandler`) return the kwargs untouched — since the override keys
were popped from the very dict the kwargs reference, the JSON they carry is
the already-stripped body in every case. -/
def handler_pre_request (remote : Remote) (h : HandlerKind)
    (json_content : List (String × JVal)) (input_policies : List String) :
    Except PyErr (List (String × JVal)) × List SpanEvent × List RemoteCall :=
  match h with
  | .chatCompletion => chat_pre_json remote json_content input_policies
  | .responses => responses_pre remote json_content input_policies
  | .audioSpeech => (.ok json_content, [], [])
  | .responsesCompact => (.ok json_content, [], [])
  | .messages => anthropic_messages_pre remote json_content input_policies

/-- `handler.post_request`: the contextual metadata each variant attaches to
the outgoing request (`request.kwargs`), or `none` for the no-op handlers.
The chat variant reads `kwargs["json"]["messages"][-1]["content"]`, the
responses variant `kwargs["json"]["input"]`; the lookups can raise. -/
def handler_post_request (h : HandlerKind) (json : List (String × JVal)) :
    Except PyErr (Option JVal) :=
  match h with
  | .chatCompletion =>
    match jGetItem (.obj json) "messages" with
    | .error e => .error e
    | .ok (.arr msgs) =>
      (match lastItem msgs with
       | .error e => .error e
       | .ok last =>
         match jGetItem last "content" with
         | .error e => .error e
         | .ok q => .ok (some (.obj [("question", q)])))
    | .ok _ => .error .typeError
  | .responses =>
    match jGetItem (.obj json) "input" with
    | .error e => .error e
    | .ok q => .ok (some (.obj [("question", q)]))
  | .audioSpeech => .ok none
  | .responsesCompact => .ok none
  | .messages => .ok (some (anthropic_question json))

/-! ## OpenAI interception dispatcher (`OpenAI.build_request_decorator`) -/

/-- Decode a per-request policy-override value into policy names; the wire
format is an array of name strings. -/
def policyNames : JVal → List String
  | .arr xs => xs.filterMap (fun v => match v with | .str s => some s | _ => none)
  | _ => []

/-- `popped or defaults` (Python truthiness): a truthy popped value is used,
anything falsy — absent key, `None`, or an empty list — falls back to the
client-wide defaults. -/
def policyListOr (popped : Option JVal) (defaults : List String) : List String :=
  match popped with
  | some v => if jtruthy v then policyNames v else defaults
  | none => defaults

/-- The kwargs the SDK hands to `build_request`: the JSON body (if any) and
the target URL path. -/
structure BuildKwargs where
  json : Option JVal
  urlPath : String

/-- Observable milestones of one `build_request` invocation: which handler
hooks ran, and the JSON carried by the wire request when the inner
`build_request` was reached. -/
inductive HookEvent where
  | preRequest (h : HandlerKind)
  | builtRequest (json : Option JVal)
  | postRequest (h : HandlerKind)
deriving DecidableEq

/-- The wire request produced on the success path: its JSON payload, the
policy lists stamped onto the request object, and the contextual metadata
attached by `post_request`. -/
structure BuiltRequest where
  json : Option JVal
  input_policies : List String
  output_policies : List String
  questionKwargs : Option JVal
deriving DecidableEq

deriving instance DecidableEq for Except

/-- Everything one dispatcher invocation produces: the result (or raised
error), the hook milestones, the span events, and the remote policy calls. -/
structure DispatchOut (α : Type) where
  result : Except PyErr α
  hooks : List HookEvent
  spans : List SpanEvent
  calls : List RemoteCall
deriving DecidableEq

/-- The `wrapper` installed by `OpenAI.build_request_decorator`.  It pops the
two override keys (an `AttributeError` when there is no JSON body), resolves
per-request policies against the client-wide defaults, resolves the handler
from the URL path, runs `pre_request` only when a handler matched and the
body is not streaming, builds the wire request, stamps the policy lists on
it, and runs `post_request` whenever a handler matched — streaming or not. -/
def openai_build_request (remote : Remote)
    (global_input_policies global_output_policies : List String)
    (kw : BuildKwargs) : DispatchOut BuiltRequest :=
  match kw.json with
  | none => ⟨.error .attributeError, [], [], []⟩
  | some (.obj body) =>
    let (inPopped, body1) := popKey body "input_policies"
    let input_policies := policyListOr inPopped global_input_policies
    let (outPopped, body2) := popKey body1 "output_policies"
    let output_policies := policyListOr outPopped global_output_policies
    let handler? := openai_get_handler kw.urlPath
    let streaming := jtruthy ((getKey body2 "stream").getD (.bool false))
    match handler?, streaming with
    | some h, false =>
      let (r, sp, rc) := handler_pre_request remote h body2 input_policies
      (match r with
       | .error e => ⟨.error e, [.preRequest h], sp, rc⟩
       | .ok body3 =>
         match handler_post_request h body3 with
         | .error e =>
           ⟨.error e,
            [.preRequest h, .builtRequest (some (.obj body3)), .postRequest h],
            sp, rc⟩
         | .ok q =>
           ⟨.ok ⟨some (.obj body3), input_policies, output_policies, q⟩,
            [.preRequest h, .builtRequest (some (.obj body3)), .postRequest h],
            sp, rc⟩)
    | some h, true =>
      (match handler_post_request h body2 with
       | .error e =>
         ⟨.error e, [.builtRequest (some (.obj body2)), .postRequest h], [], []⟩
       | .ok q =>
         ⟨.ok ⟨some (.obj body2), input_policies, output_policies, q⟩,
          [.builtRequest (some (.obj body2)), .postRequest h], [], []⟩)
    | none, _ =>
      ⟨.ok ⟨some (.obj body2), input_policies, output_policies, none⟩,
       [.builtRequest (some (.obj body2))], [], []⟩
  | some _ => ⟨.error .typeError, [], [], []⟩

/-! ## OpenAI response hook (`OpenAI.run_output_policies`) -/

/-- A received HTTP response as the event hook sees it: status, Content-Type
header (absent headers give `none`), the parsed JSON body (`none` models a
body `response.json()` cannot parse), and the attributes stamped on the
originating request — its URL path, output-policy list, and the `kwargs`
metadata `post_request` attached. -/
structure HttpResponse where
  status : Nat
  contentType : Option String
  bodyJson : Option JVal
  reqPath : String
  output_policies : List String
  reqKwargs : Option JVal

/-- The output-policy loop of `post_response`
(`for policy in output_policies: self.overmind_client.run_layer(...)`):
every policy is invoked with the SAME content — output policies are
independent, nothing chains from one to the next, and each call's verdict is
discarded (trace side effects only).  An error from `run_layer` propagates,
stopping the loop. -/
def run_output_loop (remote : Remote) (policies : List String)
    (content : JVal) :
    Except PyErr Unit × List SpanEvent × List RemoteCall :=
  match policies with
  | [] => (.ok (), [], [])
  | p :: rest =>
    let (r, sp, rc) := run_layer remote p content
    match r with
    | .error e => (.error e, sp, rc)
    | .ok _ =>
      let (r', sp', rc') := run_output_loop remote rest content
      (r', sp ++ sp', rc ++ rc')

/-- `chatCompletionHandler.post_response`: read
`json_output["choices"][0]["message"]` (each lookup can raise), default
`content` to `""`, no-op when content is falsy, otherwise run each output
policy through `run_layer`, all on that same content. -/
def chat_post_response (remote : Remote) (json_output : JVal)
    (output_policies : List String) :
    Except PyErr Unit × List SpanEvent × List RemoteCall :=
  match jGetItem json_output "choices" with
  | .error e => (.error e, [], [])
  | .ok choices =>
    match choices with
    | .arr cs =>
      (match cs.head? with
       | none => (.error .indexError, [], [])
       | some c0 =>
         match jGetItem c0 "message" with
         | .error e => (.error e, [], [])
         | .ok message =>
           let content := match message with
             | .obj kvs => (getKey kvs "content").getD (.str "")
             | _ => .str ""
           if !jtruthy content then (.ok (), [], [])
           else run_output_loop remote output_policies content)
    | _ => (.error .typeError, [], [])

/-- `OpenAI.run_output_policies` — the response event hook: skip non-200
statuses and non-JSON content types silently; otherwise parse the body
(raising on unparseable JSON), resolve the handler from the originating
request's path (a miss is a silent no-op), and invoke its `post_response`.
Only the chat-completion variant does anything (`responsesHandler` and the
no-op handlers pass). -/
def run_output_policies (remote : Remote) (resp : HttpResponse) :
    Except PyErr Unit × List SpanEvent × List RemoteCall :=
  if resp.status ≠ 200 then (.ok (), [], [])
  else if resp.contentType ≠ some "application/json" then (.ok (), [], [])
  else
    match resp.bodyJson with
    | none => (.error .jsonDecodeError, [], [])
    | some json_output =>
      match openai_get_handler resp.reqPath with
      | none => (.ok (), [], [])
      | some .chatCompletion =>
        chat_post_response remote json_output resp.output_policies
      | some _ => (.ok (), [], [])


/-- The `wrapper` installed by `Anthropic.build_request_decorator`.  Unlike
the OpenAI wrapper it guards a missing (or falsy) JSON body, passing the
request straight through to the inner `build_request` with nothing stripped,
no policies stamped, and no hook run. -/
def anthropic_build_request (remote : Remote)
    (global_input_policies global_output_policies : List String)
    (kw : BuildKwargs) : DispatchOut BuiltRequest :=
  let falsyJson := match kw.json with
    | none => true
    | some v => !jtruthy v
  if falsyJson then
    ⟨.ok ⟨kw.json, [], [], none⟩, [.builtRequest kw.json], [], []⟩
  else
    match kw.json with
    | some (.obj body) =>
      let (inPopped, body1) := popKey body "input_policies"
      let input_policies := policyListOr inPopped global_input_policies
      let (outPopped, body2) := popKey body1 "output_policies"
      let output_policies := policyListOr outPopped global_output_policies
      let handler? : Option Unit :=
        if kw.urlPath = "/v1/messages" then some () else none
      let streaming := jtruthy ((getKey body2 "stream").getD (.bool false))
      match handler?, streaming with
      | some _, false =>
        let (r, sp, rc) := anthropic_messages_pre remote body2 input_policies
        (match r with
         | .error e => ⟨.error e, [.preRequest .messages], sp, rc⟩
         | .ok body3 =>
           ⟨.ok ⟨some (.obj body3), input_policies, output_policies,
                 some (anthropic_question body3)⟩,
            [.preRequest .messages, .builtRequest (some (.obj body3)),
             .postRequest .messages],
            sp, rc⟩)
      | some _, true =>
        ⟨.ok ⟨some (.obj body2), input_policies, output_policies,
              some (anthropic_question body2)⟩,
         [.builtRequest (some (.obj body2)), .postRequest .messages],
         [], []⟩
      | none, _ =>
        ⟨.ok ⟨some (.obj body2), input_policies, output_policies, none⟩,
         [.builtRequest (some (.obj body2))], [], []⟩
    | _ => ⟨.error .typeError, [], [], []⟩

/-! ## Google generate-content wrapper (`google.py`) -/

/-- The inner loop of `Client._run_input_policies` for one text part of the
last content dict.  The loop variable `text` is bound once, before the policy
loop, and never reassigned: every policy is invoked with the ORIGINAL part
text as its input, and each iteration overwrites `part["text"]` with
`res.processed_data or text`.  The part therefore ends up holding the last
policy's output (or the original text when that output is falsy). -/
def google_parts_run (remote : Remote) (policies : List String) (text : JVal) :
    Except PyErr JVal × List SpanEvent × List RemoteCall :=
  match policies with
  | [] => (.ok text, [], [])
  | p :: rest =>
    let (r, sp, rc) := run_layer remote p text
    match r with
    | .error e => (.error e, sp, rc)
    | .ok v =>
      let cur := orElseTruthy v.processed_data text
      match rest with
      | [] => (.ok cur, sp, rc)
      | _ =>
        let (r', sp', rc') := google_parts_run remote rest text
        (r', sp ++ sp', rc ++ rc')

/-- `Client._run_input_policies` on string contents: the same chained loop as
`_run_input_policies_messages` — here `contents` IS reassigned each
iteration, so each policy sees the previous policy's output. -/
def google_string_run (remote : Remote) (policies : List String) (contents : JVal) :
    Except PyErr JVal × List SpanEvent × List RemoteCall :=
  run_input_chain remote policies contents

/-! ## Trace decorator (`tracer.py`) -/

/-- What one invocation of a traced function produces: the returned value or
re-raised exception, plus the events emitted on its span. -/
structure TraceResult (β : Type) where
  result : Except PyErr β
  events : List SpanEvent

/-- `str(e)` of a modelled Python exception. -/
def pyErrStr : PyErr → String
  | .attributeError => "AttributeError"
  | .keyError k => "'" ++ k ++ "'"
  | .indexError => "list index out of range"
  | .typeError => "TypeError"
  | .valueError msg => msg
  | .jsonDecodeError => "Expecting value"
  | .remoteError msg => msg

/-- The `sync_wrapper` produced by `trace_function`: open the span, set the
`inputs` attribute (argument capture and serialization are abstracted into
the `inputsAttr` parameter), call the wrapped function; on normal return set
`outputs`, mark the span OK, and return; on an escaping exception record it,
mark the span as error, and re-raise the same exception.  The span is closed
by the `with` block on both exits. -/
def sync_wrapper {β : Type} (name : String) (inputsAttr : String)
    (serializeOut : β → String) (f : Unit → Except PyErr β) : TraceResult β :=
  match f () with
  | .ok r =>
    ⟨.ok r,
     [.spanStart name, .setAttr "inputs" inputsAttr,
      .setAttr "outputs" (serializeOut r), .setStatusOk, .spanEnd name]⟩
  | .error e =>
    ⟨.error e,
     [.spanStart name, .setAttr "inputs" inputsAttr,
      .recordException e, .setStatusError (pyErrStr e), .spanEnd name]⟩

/-- The `async_wrapper` produced by `trace_function`: textually the same
control flow as `sync_wrapper` with the single suspension at the awaited
call; the awaited computation is modelled by its eventual outcome. -/
def async_wrapper {β : Type} (name : String) (inputsAttr : String)
    (serializeOut : β → String) (f : Unit → Except PyErr β) : TraceResult β :=
  match f () with
  | .ok r =>
    ⟨.ok r,
     [.spanStart name, .setAttr "inputs" inputsAttr,
      .setAttr "outputs" (serializeOut r), .setStatusOk, .spanEnd name]⟩
  | .error e =>
    ⟨.error e,
     [.spanStart name, .setAttr "inputs" inputsAttr,
      .recordException e, .setStatusError (pyErrStr e), .spanEnd name]⟩

/-- Recognisers for counting span events. -/
def SpanEvent.isRecordException : SpanEvent → Bool
  | .recordException _ => true
  | _ => false

def SpanEvent.isStatusError : SpanEvent → Bool
  | .setStatusError _ => true
  | _ => false

def SpanEvent.isSetAttr : SpanEvent → Bool
  | .setAttr _ _ => true
  | _ => false

/-! ## Test fixture

A concrete remote behaviour used by the closed counterexample and witness
theorems: `anonymize_pii` appends `"1"` to a string input,
`reject_prompt_injection` appends `"2"`, everything else declines to
transform. -/

def execDemo : String → JVal → Option JVal := fun p v =>
  match v with
  | .str s =>
    if p = "anonymize_pii" then some (.str (s ++ "1"))
    else if p = "reject_prompt_injection" then some (.str (s ++ "2"))
    else none
  | _ => none

/-! ## Helper lemmas -/

theorem get_layer_ok {p : String} (hp : p ∈ builtinPolicies) :
    get_layer p = .ok p := by
  simp only [builtinPolicies, List.mem_cons, List.mem_singleton,
    List.not_mem_nil, or_false] at hp
  rcases hp with rfl | rfl | rfl | rfl <;> rfl

theorem get_layer_unknown {p : String} (hp : p ∉ builtinPolicies) :
    get_layer p = .error (.valueError ("Invalid layer name: " ++ p)) := by
  simp only [builtinPolicies, List.mem_cons, List.mem_singleton,
    List.not_mem_nil, or_false, not_or] at hp
  obtain ⟨h1, h2, h3, h4⟩ := hp
  simp [get_layer, h1, h2, h3, h4]

theorem run_layer_pure {exec : String → JVal → Option JVal} {p : String}
    (hp : p ∈ builtinPolicies) (t : JVal) :
    run_layer (pureRemote exec) p t =
      (.ok ⟨exec p t, "pass", ""⟩,
       [.spanStart ("execute_policy_" ++ p),
        .setAttr "inputs" (pyStr t),
        .setAttr "outputs" (pyStrOpt (exec p t)),
        .setAttr "policy_outcome" "pass",
        .setAttr "policy_results" "",
        .spanEnd ("execute_policy_" ++ p)],
       [(p, t)]) := by
  simp [run_layer, get_layer_ok hp, pureRemote]

/-- On an all-builtin policy list, the chained loop with an always-succeeding
remote computes exactly the fold of `stepPure`. -/
theorem run_input_chain_pure (exec : String → JVal → Option JVal)
    {ps : List String} (hps : ∀ p ∈ ps, p ∈ builtinPolicies) (t : JVal) :
    (run_input_chain (pureRemote exec) ps t).1 = .ok (chainPure exec ps t) := by
  induction ps generalizing t with
  | nil => rfl
  | cons p rest ih =>
    have hp : p ∈ builtinPolicies := hps p (List.mem_cons_self p rest)
    have hrest : ∀ q ∈ rest, q ∈ builtinPolicies :=
      fun q hq => hps q (List.mem_cons_of_mem p hq)
    simp only [run_input_chain, run_layer, get_layer_ok hp, pureRemote,
      chainPure, List.foldl_cons]
    have := ih hrest (stepPure exec p t)
    simp only [chainPure] at this
    simpa [stepPure] using this

theorem getKey_removeKey_ne {l : List (String × JVal)} {k k0 : String}
    (h : k ≠ k0) : getKey (removeKey l k0) k = getKey l k := by
  induction l with
  | nil => rfl
  | cons kv rest ih =>
    obtain ⟨k1, v1⟩ := kv
    by_cases hk : k1 = k0
    · have hne : ¬ k1 = k := fun hh => h (by rw [← hh, hk])
      simp [removeKey, hk, getKey, hne, Ne.symm h, ih]
    · by_cases hkk : k1 = k
      · simp [removeKey, hk, getKey, hkk, h]
      · simp [removeKey, hk, getKey, hkk, ih]

theorem getKey_setKey_self (l : List (String × JVal)) (k : String) (v : JVal) :
    getKey (setKey l k v) k = some v := by
  induction l with
  | nil => simp [setKey, getKey]
  | cons kv rest ih =>
    obtain ⟨k1, v1⟩ := kv
    by_cases hk : k1 = k
    · simp [setKey, hk, getKey]
    · simp [setKey, hk, getKey, ih]

theorem getKey_setKey_ne {l : List (String × JVal)} {k k' : String}
    (h : k' ≠ k) (v : JVal) : getKey (setKey l k v) k' = getKey l k' := by
  induction l with
  | nil => simp [setKey, getKey, Ne.symm h]
  | cons kv rest ih =>
    obtain ⟨k1, v1⟩ := kv
    by_cases hk : k1 = k
    · subst hk
      simp [setKey, getKey, Ne.symm h]
    · by_cases hkk : k1 = k'
      · simp [setKey, hk, getKey, hkk, h]
      · simp [setKey, hk, getKey, hkk, ih]

theorem removeKey_eq_filter (l : List (String × JVal)) (k : String) :
    removeKey l k = l.filter (fun kv => kv.1 != k) := by
  induction l with
  | nil => rfl
  | cons kv rest ih =>
    obtain ⟨k1, v1⟩ := kv
    by_cases hk : k1 = k
    · simp [removeKey, hk, List.filter_cons, ih]
    · simp [removeKey, hk, List.filter_cons, ih]

theorem removeKey_removeKey (l : List (String × JVal)) (k1 k2 : String) :
    removeKey (removeKey l k1) k2 =
      l.filter (fun kv => kv.1 != k1 && kv.1 != k2) := by
  simp [removeKey_eq_filter, List.filter_filter, Bool.and_comm]

/-- A remote policy service whose every call fails, for exercising the
failure paths. -/
def failRemote : Remote := fun _ _ => .error (.remoteError "boom")

/-- On the singleton input list every handler passes it, the policy loop with
an always-succeeding remote returns the pure chain of the one element. -/
theorem run_input_policies_messages_singleton_pure
    (exec : String → JVal → Option JVal) {ps : List String}
    (hps : ∀ p ∈ ps, p ∈ builtinPolicies) (t : JVal) :
    (run_input_policies_messages (pureRemote exec) [t] ps).1 =
      .ok [chainPure exec ps t] := by
  cases ps with
  | nil => rfl
  | cons p rest =>
    have := run_input_chain_pure exec hps t
    simp only [run_input_policies_messages, List.getLast?_singleton]
    rcases hchain : run_input_chain (pureRemote exec) (p :: rest) t with ⟨r, sp, rc⟩
    rw [hchain] at this
    simp only at this
    simp [this, Except.map]

/-- A chat-completion request body fixture: optional leading entries, then
`model` and a single user message carrying `t`. -/
def chatBodyWith (lead : List (String × JVal)) (t : String) : JVal :=
  .obj (lead ++
    [("model", .str "gpt"),
     ("messages", .arr [.obj [("role", .str "user"), ("content", .str t)]])])

/-! ## Claim theorems -/

/-- C6 (counterexample): `run_layer` for the builtin policy `anonymize_pii`
with a remote execution that raises opens and closes the
`execute_policy_anonymize_pii` span but records NO attribute on it — the
four `set_attribute` calls sit after `layer.run` inside the `with` block, so
they are skipped on the raise.  This falsifies "the input text, output text,
policy outcome, and raw results are recorded as span attributes regardless of
whether the remote policy execution succeeds or raises". -/
theorem run_layer_span_counterexample :
    run_layer failRemote "anonymize_pii" (.str "x") =
      (.error (.remoteError "boom"),
       [.spanStart "execute_policy_anonymize_pii",
        .spanEnd "execute_policy_anonymize_pii"],
       [("anonymize_pii", .str "x")]) ∧
    (run_layer failRemote "anonymize_pii" (.str "x")).2.1.countP
        SpanEvent.isSetAttr = 0 := by
  constructor
  · rfl
  · rfl

/-- C6 (amended): for a registered policy name, `run_layer` opens the span
`execute_policy_{policy}` and closes it on both exits; the four attributes
(input text, output text, outcome, raw results) are recorded only when the
remote execution succeeds — on a raise the error propagates to the caller
and the span is closed with no attribute recorded. -/
theorem run_layer_span_amended (remote : Remote) (p : String)
    (hp : p ∈ builtinPolicies) (input : JVal) :
    run_layer remote p input =
      match remote p input with
      | .error e =>
        (.error e,
         [.spanStart ("execute_policy_" ++ p), .spanEnd ("execute_policy_" ++ p)],
         [(p, input)])
      | .ok v =>
        (.ok v,
         [.spanStart ("execute_policy_" ++ p),
          .setAttr "inputs" (pyStr input),
          .setAttr "outputs" (pyStrOpt v.processed_data),
          .setAttr "policy_outcome" v.overall_policy_outcome,
          .setAttr "policy_results" v.policy_results,
          .spanEnd ("execute_policy_" ++ p)],
         [(p, input)]) := by
  rw [run_layer, get_layer_ok hp]

/-- C6 witness: the amended theorem applied to a concrete failing remote. -/
theorem run_layer_span_amended_witness :
    run_layer failRemote "reject_prompt_injection" (.str "hi") =
      match failRemote "reject_prompt_injection" (.str "hi") with
      | .error e =>
        (.error e,
         [.spanStart "execute_policy_reject_prompt_injection",
          .spanEnd "execute_policy_reject_prompt_injection"],
         [("reject_prompt_injection", .str "hi")])
      | .ok v =>
        (.ok v,
         [.spanStart "execute_policy_reject_prompt_injection",
          .setAttr "inputs" (pyStr (.str "hi")),
          .setAttr "outputs" (pyStrOpt v.processed_data),
          .setAttr "policy_outcome" v.overall_policy_outcome,
          .setAttr "policy_results" v.policy_results,
          .spanEnd "execute_policy_reject_prompt_injection"],
         [("reject_prompt_injection", .str "hi")]) :=
  run_layer_span_amended failRemote "reject_prompt_injection" (by decide)
    (.str "hi")

/-- C9: both trace-decorator wrappers, applied to a function whose body
raises `e`, re-raise the same `e`, and the span for that invocation receives
exactly one recorded exception and exactly one error-status call before
being closed (the span-end event is last). -/
theorem trace_decorator_raise {β : Type} (name inputsAttr : String)
    (ser : β → String) (f : Unit → Except PyErr β) (e : PyErr)
    (hf : f () = .error e) :
    sync_wrapper name inputsAttr ser f =
      ⟨.error e,
       [.spanStart name, .setAttr "inputs" inputsAttr, .recordException e,
        .setStatusError (pyErrStr e), .spanEnd name]⟩ ∧
    async_wrapper name inputsAttr ser f =
      ⟨.error e,
       [.spanStart name, .setAttr "inputs" inputsAttr, .recordException e,
        .setStatusError (pyErrStr e), .spanEnd name]⟩ ∧
    (sync_wrapper name inputsAttr ser f).events.countP
        SpanEvent.isRecordException = 1 ∧
    (sync_wrapper name inputsAttr ser f).events.countP
        SpanEvent.isStatusError = 1 ∧
    (sync_wrapper name inputsAttr ser f).events.getLast? =
      some (.spanEnd name) := by
  refine ⟨?_, ?_, ?_, ?_, ?_⟩ <;>
    simp [sync_wrapper, async_wrapper, hf, List.countP_cons,
      SpanEvent.isRecordException, SpanEvent.isStatusError]

/-- C9 witness: the theorem applied to a concrete raising function. -/
theorem trace_decorator_raise_witness :
    sync_wrapper "run" "inputs" (fun _ : Unit => "") (fun _ => .error .typeError) =
      ⟨.error .typeError,
       [.spanStart "run", .setAttr "inputs" "inputs",
        .recordException .typeError,
        .setStatusError (pyErrStr .typeError), .spanEnd "run"]⟩ ∧
    async_wrapper "run" "inputs" (fun _ : Unit => "") (fun _ => .error .typeError) =
      ⟨.error .typeError,
       [.spanStart "run", .setAttr "inputs" "inputs",
        .recordException .typeError,
        .setStatusError (pyErrStr .typeError), .spanEnd "run"]⟩ ∧
    (sync_wrapper "run" "inputs" (fun _ : Unit => "")
        (fun _ => .error .typeError)).events.countP
        SpanEvent.isRecordException = 1 ∧
    (sync_wrapper "run" "inputs" (fun _ : Unit => "")
        (fun _ => .error .typeError)).events.countP
        SpanEvent.isStatusError = 1 ∧
    (sync_wrapper "run" "inputs" (fun _ : Unit => "")
        (fun _ => .error .typeError)).events.getLast? =
      some (.spanEnd "run") :=
  trace_decorator_raise "run" "inputs" (fun _ : Unit => "")
    (fun _ => .error .typeError) .typeError rfl

/-- C10: a request whose kwargs carry no JSON body makes the OpenAI wrapper
raise `AttributeError` (from `None.pop`) before anything else happens, while
the Anthropic wrapper's `if not json_content` guard passes the request
through to the inner `build_request` unmodified, with no hook, span, or
policy call. -/
theorem missing_json_body_behavior (remote : Remote)
    (gIn gOut : List String) (path : String) :
    openai_build_request remote gIn gOut ⟨none, path⟩ =
      ⟨.error .attributeError, [], [], []⟩ ∧
    anthropic_build_request remote gIn gOut ⟨none, path⟩ =
      ⟨.ok ⟨none, [], [], none⟩, [.builtRequest none], [], []⟩ :=
  ⟨rfl, rfl⟩

/-- C1 (counterexample): a streaming chat-completion request
(`stream: true`, path `/v1/chat/completions`) does NOT bypass every handler
hook: `pre_request` is skipped (no policy call), but the dispatcher's final
`if handler:` guard tests only the handler, not streaming, so
`post_request` executes on this request.  This falsifies "no handler hook
(pre_request, post_request, or post_response) executes on that request". -/
theorem streaming_post_request_counterexample :
    (openai_build_request (pureRemote execDemo) [] []
        ⟨some (chatBodyWith [("stream", .bool true)] "hi"),
         "/v1/chat/completions"⟩).hooks =
      [.builtRequest (some (chatBodyWith [("stream", .bool true)] "hi")),
       .postRequest .chatCompletion] ∧
    HookEvent.postRequest .chatCompletion ∈
      (openai_build_request (pureRemote execDemo) [] []
        ⟨some (chatBodyWith [("stream", .bool true)] "hi"),
         "/v1/chat/completions"⟩).hooks ∧
    (openai_build_request (pureRemote execDemo) [] []
        ⟨some (chatBodyWith [("stream", .bool true)] "hi"),
         "/v1/chat/completions"⟩).calls = [] := by
  refine ⟨rfl, ?_, rfl⟩
  rw [show (openai_build_request (pureRemote execDemo) [] []
        ⟨some (chatBodyWith [("stream", .bool true)] "hi"),
         "/v1/chat/completions"⟩).hooks =
      [.builtRequest (some (chatBodyWith [("stream", .bool true)] "hi")),
       .postRequest .chatCompletion] from rfl]
  exact List.mem_cons_of_mem _ (List.mem_singleton.mpr rfl)

/-- C1 (amended): for a streaming request whose path a handler matches,
`pre_request` does not run — no input policy executes (no remote call, no
span) and the body passes through with only the two override keys stripped —
but `post_request` does still execute on the request. -/
theorem streaming_bypass_amended (remote : Remote) (gIn gOut : List String)
    (body : List (String × JVal)) (path : String) (h : HandlerKind)
    (hh : openai_get_handler path = some h)
    (hs : jtruthy ((getKey body "stream").getD (.bool false)) = true) :
    (openai_build_request remote gIn gOut ⟨some (.obj body), path⟩).hooks =
      [.builtRequest (some (.obj (body.filter
          (fun kv => kv.1 != "input_policies" && kv.1 != "output_policies")))),
       .postRequest h] ∧
    (openai_build_request remote gIn gOut ⟨some (.obj body), path⟩).spans = [] ∧
    (openai_build_request remote gIn gOut ⟨some (.obj body), path⟩).calls = [] := by
  have hbody2 := removeKey_removeKey body "input_policies" "output_policies"
  have hstream2 : jtruthy ((getKey (List.filter
      (fun kv => kv.1 != "input_policies" && kv.1 != "output_policies") body)
      "stream").getD (.bool false)) = true := by
    rw [← hbody2, getKey_removeKey_ne (by decide),
      getKey_removeKey_ne (by decide), hs]
  simp only [openai_build_request, popKey, hh, hbody2, hstream2]
  cases hpost : handler_post_request h (List.filter
      (fun kv => kv.1 != "input_policies" && kv.1 != "output_policies") body) <;>
    simp [hpost]

/-- C1 witness: the amended theorem at a concrete streaming chat request. -/
theorem streaming_bypass_amended_witness :
    (openai_build_request (pureRemote execDemo) [] []
        ⟨some (chatBodyWith [("stream", .bool true)] "hi"),
         "/v1/chat/completions"⟩).hooks =
      [.builtRequest (some (.obj (([("stream", JVal.bool true),
            ("model", JVal.str "gpt"),
            ("messages", JVal.arr [.obj [("role", JVal.str "user"),
              ("content", JVal.str "hi")]])] :
          List (String × JVal)).filter
          (fun kv => kv.1 != "input_policies" && kv.1 != "output_policies")))),
       .postRequest .chatCompletion] ∧
    (openai_build_request (pureRemote execDemo) [] []
        ⟨some (chatBodyWith [("stream", .bool true)] "hi"),
         "/v1/chat/completions"⟩).spans = [] ∧
    (openai_build_request (pureRemote execDemo) [] []
        ⟨some (chatBodyWith [("stream", .bool true)] "hi"),
         "/v1/chat/completions"⟩).calls = [] :=
  streaming_bypass_amended (pureRemote execDemo) [] []
    [("stream", .bool true), ("model", .str "gpt"),
     ("messages", .arr [.obj [("role", .str "user"), ("content", .str "hi")]])]
    "/v1/chat/completions" .chatCompletion rfl rfl

/-- C3 (counterexample): a request that supplies `input_policies: []` — a
per-request list, present in the body — does NOT suppress the client-wide
defaults: the empty list is falsy, `popped or defaults` falls back, and the
default policy `anonymize_pii` runs.  This falsifies "the supplied list fully
replaces the client-wide default list ... (including an empty list)". -/
theorem empty_override_counterexample :
    getKey [("input_policies", JVal.arr []), ("model", JVal.str "gpt"),
        ("messages", JVal.arr [.obj [("role", JVal.str "user"),
          ("content", JVal.str "hi")]])] "input_policies" =
      some (.arr []) ∧
    (openai_build_request (pureRemote execDemo) ["anonymize_pii"] []
        ⟨some (chatBodyWith [("input_policies", .arr [])] "hi"),
         "/v1/chat/completions"⟩).calls =
      [("anonymize_pii", .str "hi")] :=
  ⟨rfl, rfl⟩

/-- C3 (amended): a TRUTHY (nonempty) per-request policy list fully replaces
the client-wide defaults — only the supplied policy is executed, whatever the
defaults — while a falsy one (absent key, `None`, or an empty list) falls
back to the defaults, which then run. -/
theorem policy_override_amended (exec : String → JVal → Option JVal)
    (gIn gOut : List String) (p q : String)
    (hp : p ∈ builtinPolicies) (hq : q ∈ builtinPolicies) (t : String) :
    (openai_build_request (pureRemote exec) gIn gOut
        ⟨some (chatBodyWith [("input_policies", .arr [.str p])] t),
         "/v1/chat/completions"⟩).calls = [(p, .str t)] ∧
    (openai_build_request (pureRemote exec) [q] gOut
        ⟨some (chatBodyWith [("input_policies", .arr [])] t),
         "/v1/chat/completions"⟩).calls = [(q, .str t)] := by
  simp only [builtinPolicies, List.mem_cons, List.mem_singleton,
    List.not_mem_nil, or_false] at hp hq
  rcases hp with rfl | rfl | rfl | rfl <;> rcases hq with rfl | rfl | rfl | rfl <;>
    exact ⟨rfl, rfl⟩

/-- C3 witness: the amended theorem at concrete policies and text. -/
theorem policy_override_amended_witness :
    (openai_build_request (pureRemote execDemo) ["reject_prompt_injection"] []
        ⟨some (chatBodyWith
            [("input_policies", .arr [.str "anonymize_pii"])] "hi"),
         "/v1/chat/completions"⟩).calls = [("anonymize_pii", .str "hi")] ∧
    (openai_build_request (pureRemote execDemo) ["reject_prompt_injection"] []
        ⟨some (chatBodyWith [("input_policies", .arr [])] "hi"),
         "/v1/chat/completions"⟩).calls =
      [("reject_prompt_injection", .str "hi")] :=
  policy_override_amended execDemo ["reject_prompt_injection"] []
    "anonymize_pii" "reject_prompt_injection" (by decide) (by decide) "hi"

/-- C4: on a path no handler matches, the dispatcher sends the body through
with exactly the two override keys removed — every other entry keeps its
value and relative order, nothing is added, no hook, span, or policy call
happens, and the override keys are absent from the wire payload (they do not
survive the filter). -/
theorem no_handler_passthrough (remote : Remote) (gIn gOut : List String)
    (body : List (String × JVal)) (path : String)
    (hh : openai_get_handler path = none) :
    openai_build_request remote gIn gOut ⟨some (.obj body), path⟩ =
      ⟨.ok ⟨some (.obj (body.filter
            (fun kv => kv.1 != "input_policies" && kv.1 != "output_policies"))),
            policyListOr (getKey body "input_policies") gIn,
            policyListOr (getKey body "output_policies") gOut,
            none⟩,
       [.builtRequest (some (.obj (body.filter
          (fun kv => kv.1 != "input_policies" && kv.1 != "output_policies"))))],
       [], []⟩ := by
  have hout : getKey (removeKey body "input_policies") "output_policies" =
      getKey body "output_policies" := getKey_removeKey_ne (by decide)
  have hbody2 := removeKey_removeKey body "input_policies" "output_policies"
  simp only [openai_build_request, popKey, hh, hout, hbody2]

/-- C4 witness: a concrete un-handled path, with both override keys present
and stripped. -/
theorem no_handler_passthrough_witness :
    openai_build_request (pureRemote execDemo) [] []
        ⟨some (.obj [("input_policies", .arr [.str "anonymize_pii"]),
                     ("foo", .str "bar"),
                     ("output_policies", .arr [.str "reject_prompt_injection"])]),
         "/v1/embeddings"⟩ =
      ⟨.ok ⟨some (.obj (([("input_policies", JVal.arr [.str "anonymize_pii"]),
                ("foo", JVal.str "bar"),
                ("output_policies", JVal.arr [.str "reject_prompt_injection"])] :
              List (String × JVal)).filter
            (fun kv => kv.1 != "input_policies" && kv.1 != "output_policies"))),
            policyListOr (getKey [("input_policies", .arr [.str "anonymize_pii"]),
                ("foo", .str "bar"),
                ("output_policies", .arr [.str "reject_prompt_injection"])]
              "input_policies") [],
            policyListOr (getKey [("input_policies", .arr [.str "anonymize_pii"]),
                ("foo", .str "bar"),
                ("output_policies", .arr [.str "reject_prompt_injection"])]
              "output_policies") [],
            none⟩,
       [.builtRequest (some (.obj (([("input_policies",
                JVal.arr [.str "anonymize_pii"]),
                ("foo", JVal.str "bar"),
                ("output_policies", JVal.arr [.str "reject_prompt_injection"])] :
              List (String × JVal)).filter
            (fun kv => kv.1 != "input_policies" && kv.1 != "output_policies"))))],
       [], []⟩ :=
  no_handler_passthrough (pureRemote execDemo) [] []
    [("input_policies", .arr [.str "anonymize_pii"]), ("foo", .str "bar"),
     ("output_policies", .arr [.str "reject_prompt_injection"])]
    "/v1/embeddings" rfl

/-- C2 (counterexample): on the Google generate-content parts path with
policies `[anonymize_pii, reject_prompt_injection]` (where under `execDemo`
the first appends `"1"` and the second `"2"`) and part text `"x"`, the final
text is `"x2"` — the second policy received the ORIGINAL text — whereas the
claimed chain `B(A(T))` is `"x12"`.  This falsifies "the text sent equals
B(A(T)) ... for every handler variant, including the Google generate-content
path over a list of content parts". -/
theorem google_parts_chain_counterexample :
    (google_parts_run (pureRemote execDemo)
        ["anonymize_pii", "reject_prompt_injection"] (.str "x")).1 =
      .ok (.str "x2") ∧
    stepPure execDemo "reject_prompt_injection"
        (stepPure execDemo "anonymize_pii" (.str "x")) = .str "x12" ∧
    (google_parts_run (pureRemote execDemo)
        ["anonymize_pii", "reject_prompt_injection"] (.str "x")).1 ≠
      .ok (stepPure execDemo "reject_prompt_injection"
        (stepPure execDemo "anonymize_pii" (.str "x"))) :=
  ⟨rfl, rfl, by decide⟩

/-- C2 (amended): with registered policies `[A, B]` and input `T`, the
policy loop used by the message handlers (`_run_input_policies_messages`,
whether on the bare chain or on the singleton input list) and the Google
string path compute `B(A(T))` — strictly sequential, each policy receiving
the previous output, a falsy processed value keeping that step's input.  On
the Google parts path, however, each policy receives the original part text
and the final text is `B(T)` — the last policy's output over the ORIGINAL
text (or the original text itself when that output is falsy). -/
theorem input_policy_chain_amended (exec : String → JVal → Option JVal)
    (A B : String) (hA : A ∈ builtinPolicies) (hB : B ∈ builtinPolicies)
    (T : JVal) :
    (run_input_chain (pureRemote exec) [A, B] T).1 =
      .ok (stepPure exec B (stepPure exec A T)) ∧
    (run_input_policies_messages (pureRemote exec) [T] [A, B]).1 =
      .ok [stepPure exec B (stepPure exec A T)] ∧
    (google_string_run (pureRemote exec) [A, B] T).1 =
      .ok (stepPure exec B (stepPure exec A T)) ∧
    (google_parts_run (pureRemote exec) [A, B] T).1 =
      .ok (stepPure exec B T) := by
  have hps : ∀ p ∈ [A, B], p ∈ builtinPolicies := by
    intro p hp
    rcases List.mem_cons.mp hp with rfl | hp
    · exact hA
    · rcases List.mem_singleton.mp hp with rfl
      exact hB
  refine ⟨?_, ?_, ?_, ?_⟩
  · have := run_input_chain_pure exec hps T
    simpa [chainPure, List.foldl_cons] using this
  · have := run_input_policies_messages_singleton_pure exec hps T
    simpa [chainPure, List.foldl_cons] using this
  · have := run_input_chain_pure exec hps T
    simpa [google_string_run, chainPure, List.foldl_cons] using this
  · simp only [google_parts_run, run_layer, get_layer_ok hA, get_layer_ok hB,
      pureRemote, stepPure]

/-- C2 witness: the amended theorem at the fixture policies and text
`"x"`. -/
theorem input_policy_chain_amended_witness :
    (run_input_chain (pureRemote execDemo)
        ["anonymize_pii", "reject_prompt_injection"] (.str "x")).1 =
      .ok (stepPure execDemo "reject_prompt_injection"
        (stepPure execDemo "anonymize_pii" (.str "x"))) ∧
    (run_input_policies_messages (pureRemote execDemo) [.str "x"]
        ["anonymize_pii", "reject_prompt_injection"]).1 =
      .ok [stepPure execDemo "reject_prompt_injection"
        (stepPure execDemo "anonymize_pii" (.str "x"))] ∧
    (google_string_run (pureRemote execDemo)
        ["anonymize_pii", "reject_prompt_injection"] (.str "x")).1 =
      .ok (stepPure execDemo "reject_prompt_injection"
        (stepPure execDemo "anonymize_pii" (.str "x"))) ∧
    (google_parts_run (pureRemote execDemo)
        ["anonymize_pii", "reject_prompt_injection"] (.str "x")).1 =
      .ok (stepPure execDemo "reject_prompt_injection" (.str "x")) :=
  input_policy_chain_amended execDemo "anonymize_pii"
    "reject_prompt_injection" (by decide) (by decide) (.str "x")

/-- C8: a policy name outside the registered built-ins makes the layer
factory raise (`ValueError("Invalid layer name: ...")` — the failure the
spec's taxonomy names `UnknownPolicyError`) synchronously inside
`pre_request`: the wrapper re-raises it before the inner `build_request` is
reached (no request is built) and before any network call to the remote
policy service is made. -/
theorem unknown_policy_pre_request (exec : String → JVal → Option JVal)
    (gIn gOut : List String) (name : String)
    (hname : name ∉ builtinPolicies) (t : String) :
    (openai_build_request (pureRemote exec) gIn gOut
        ⟨some (chatBodyWith [("input_policies", .arr [.str name])] t),
         "/v1/chat/completions"⟩).result =
      .error (.valueError ("Invalid layer name: " ++ name)) ∧
    (openai_build_request (pureRemote exec) gIn gOut
        ⟨some (chatBodyWith [("input_policies", .arr [.str name])] t),
         "/v1/chat/completions"⟩).calls = [] ∧
    (openai_build_request (pureRemote exec) gIn gOut
        ⟨some (chatBodyWith [("input_policies", .arr [.str name])] t),
         "/v1/chat/completions"⟩).hooks = [.preRequest .chatCompletion] ∧
    (openai_build_request (pureRemote exec) gIn gOut
        ⟨some (chatBodyWith [("input_policies", .arr [.str name])] t),
         "/v1/chat/completions"⟩).spans = [] := by
  have hrl : run_layer (pureRemote exec) name (.str t) =
      (.error (.valueError ("Invalid layer name: " ++ name)), [], []) := by
    rw [run_layer, get_layer_unknown hname]
  refine ⟨?_, ?_, ?_, ?_⟩ <;>
    simp [openai_build_request, chatBodyWith, popKey, getKey, removeKey,
      policyListOr, jtruthy, policyNames, openai_get_handler,
      handler_pre_request, chat_pre_json, lastItem, jGetItem,
      run_input_policies_messages, run_input_chain, Except.map, hrl]

/-- C8 witness: the theorem at the spec's own example name
`"not_a_real_policy"`. -/
theorem unknown_policy_pre_request_witness :
    (openai_build_request (pureRemote execDemo) [] []
        ⟨some (chatBodyWith
            [("input_policies", .arr [.str "not_a_real_policy"])] "hi"),
         "/v1/chat/completions"⟩).result =
      .error (.valueError ("Invalid layer name: " ++ "not_a_real_policy")) ∧
    (openai_build_request (pureRemote execDemo) [] []
        ⟨some (chatBodyWith
            [("input_policies", .arr [.str "not_a_real_policy"])] "hi"),
         "/v1/chat/completions"⟩).calls = [] ∧
    (openai_build_request (pureRemote execDemo) [] []
        ⟨some (chatBodyWith
            [("input_policies", .arr [.str "not_a_real_policy"])] "hi"),
         "/v1/chat/completions"⟩).hooks = [.preRequest .chatCompletion] ∧
    (openai_build_request (pureRemote execDemo) [] []
        ⟨some (chatBodyWith
            [("input_policies", .arr [.str "not_a_real_policy"])] "hi"),
         "/v1/chat/completions"⟩).spans = [] :=
  unknown_policy_pre_request execDemo [] [] "not_a_real_policy" (by decide) "hi"

/-- C5 (counterexample): a 200 `application/json` chat-completion response
whose parsed body lacks `choices` makes the response hook raise
`KeyError('choices')` from `json_output["choices"]` — output-policy
application is NOT skipped silently.  This falsifies "policy application is
skipped silently for that response and no exception is raised from the
response hook". -/
theorem malformed_response_counterexample :
    run_output_policies (pureRemote execDemo)
        ⟨200, some "application/json", some (.obj [("id", .str "1")]),
         "/v1/chat/completions", ["anonymize_pii"], none⟩ =
      (.error (.keyError "choices"), [], []) :=
  rfl

/-- C5 (amended): the response hook skips silently exactly the cases its
guards cover — a non-200 status, or a Content-Type other than
`application/json`, or a chat body whose `content` is empty — but a body the
JSON parser rejects raises a decode error, and a parsed chat-completion body
missing `choices` raises `KeyError` from the hook. -/
theorem response_hook_error_amended (remote : Remote)
    (kvs : List (String × JVal)) (ops : List String) (kw : Option JVal)
    (hch : getKey kvs "choices" = none) :
    run_output_policies remote
        ⟨200, some "application/json", some (.obj kvs),
         "/v1/chat/completions", ops, kw⟩ =
      (.error (.keyError "choices"), [], []) ∧
    (∀ (st : Nat) (ct : Option String) (bj : Option JVal) (p : String)
        (o : List String) (k : Option JVal), st ≠ 200 →
      run_output_policies remote ⟨st, ct, bj, p, o, k⟩ = (.ok (), [], [])) ∧
    (∀ (st : Nat) (ct : Option String) (bj : Option JVal) (p : String)
        (o : List String) (k : Option JVal), ct ≠ some "application/json" →
      run_output_policies remote ⟨st, ct, bj, p, o, k⟩ = (.ok (), [], [])) ∧
    run_output_policies remote
        ⟨200, some "application/json", none, "/v1/chat/completions", ops, kw⟩ =
      (.error .jsonDecodeError, [], []) ∧
    run_output_policies remote
        ⟨200, some "application/json",
         some (.obj [("choices", .arr [.obj [("message",
           .obj [("content", .str "")])]])]),
         "/v1/chat/completions", ops, kw⟩ =
      (.ok (), [], []) := by
  refine ⟨?_, ?_, ?_, ?_, ?_⟩
  · simp [run_output_policies, openai_get_handler, chat_post_response,
      jGetItem, hch]
  · intro st ct bj p o k hst
    simp [run_output_policies, hst]
  · intro st ct bj p o k hct
    by_cases hst : st = 200
    · subst hst
      simp [run_output_policies, hct]
    · simp [run_output_policies, hst]
  · simp [run_output_policies]
  · simp [run_output_policies, openai_get_handler, chat_post_response,
      jGetItem, getKey, jtruthy]

/-- C5 witness: the amended theorem at a concrete body without `choices`. -/
theorem response_hook_error_amended_witness :
    run_output_policies (pureRemote execDemo)
        ⟨200, some "application/json", some (.obj [("id", .str "1")]),
         "/v1/chat/completions", ["anonymize_pii"], none⟩ =
      (.error (.keyError "choices"), [], []) ∧
    (∀ (st : Nat) (ct : Option String) (bj : Option JVal) (p : String)
        (o : List String) (k : Option JVal), st ≠ 200 →
      run_output_policies (pureRemote execDemo) ⟨st, ct, bj, p, o, k⟩ =
        (.ok (), [], [])) ∧
    (∀ (st : Nat) (ct : Option String) (bj : Option JVal) (p : String)
        (o : List String) (k : Option JVal), ct ≠ some "application/json" →
      run_output_policies (pureRemote execDemo) ⟨st, ct, bj, p, o, k⟩ =
        (.ok (), [], [])) ∧
    run_output_policies (pureRemote execDemo)
        ⟨200, some "application/json", none, "/v1/chat/completions",
         ["anonymize_pii"], none⟩ =
      (.error .jsonDecodeError, [], []) ∧
    run_output_policies (pureRemote execDemo)
        ⟨200, some "application/json",
         some (.obj [("choices", .arr [.obj [("message",
           .obj [("content", .str "")])]])]),
         "/v1/chat/completions", ["anonymize_pii"], none⟩ =
      (.ok (), [], []) :=
  response_hook_error_amended (pureRemote execDemo) [("id", .str "1")]
    ["anonymize_pii"] none rfl

/-- C7 (counterexample): `_pre_json` rebuilds the last chat message as a
fresh dict holding ONLY `role` and `content` — a `name` key present on the
input's last message is dropped from the dispatched body.  This falsifies
"preserves ... any field of the last message other than its content". -/
theorem pre_json_drops_extra_keys_counterexample :
    chat_pre_json (pureRemote execDemo)
        [("model", .str "gpt"),
         ("messages", .arr [.obj [("role", .str "user"),
           ("content", .str "X"), ("name", .str "bob")]])]
        [] =
      (.ok [("model", .str "gpt"),
            ("messages", .arr [.obj [("role", .str "user"),
              ("content", .str "X")]])],
       [], []) ∧
    jGetItem (.obj [("role", JVal.str "user"), ("content", JVal.str "X")])
        "name" =
      .error (.keyError "name") :=
  ⟨rfl, rfl⟩

/-- C7 (amended): `_pre_json` replaces the last message by a fresh
`{role, content}` dict whose content is the policy-chain output — every OTHER
key of the last message is dropped — while earlier messages are untouched
and every other top-level body field keeps its value (`messages` itself is
re-inserted at the end of the body, after being popped). -/
theorem pre_json_frame_amended (exec : String → JVal → Option JVal)
    (ps : List String) (hps : ∀ p ∈ ps, p ∈ builtinPolicies)
    (body : List (String × JVal)) (init : List JVal)
    (lastKvs : List (String × JVal)) (r c : JVal)
    (hm : getKey body "messages" = some (.arr (init ++ [.obj lastKvs])))
    (hc : getKey lastKvs "content" = some c)
    (hr : getKey lastKvs "role" = some r) :
    (chat_pre_json (pureRemote exec) body ps).1 =
      .ok (setKey (removeKey body "messages") "messages"
        (.arr (init ++ [.obj [("role", r),
          ("content", chainPure exec ps c)]]))) ∧
    getKey (setKey (removeKey body "messages") "messages"
        (.arr (init ++ [.obj [("role", r),
          ("content", chainPure exec ps c)]]))) "messages" =
      some (.arr (init ++ [.obj [("role", r),
        ("content", chainPure exec ps c)]])) ∧
    (∀ k, k ≠ "messages" →
      getKey (setKey (removeKey body "messages") "messages"
          (.arr (init ++ [.obj [("role", r),
            ("content", chainPure exec ps c)]]))) k =
        getKey body k) := by
  refine ⟨?_, getKey_setKey_self _ _ _, ?_⟩
  · have hlast : (init ++ [JVal.obj lastKvs]).getLast? = some (.obj lastKvs) :=
      List.getLast?_concat _
    have hchain := run_input_policies_messages_singleton_pure exec hps c
    rcases hrun : run_input_policies_messages (pureRemote exec) [c] ps
      with ⟨rr, sp, rc⟩
    rw [hrun] at hchain
    simp only at hchain
    simp [chat_pre_json, popKey, hm, lastItem, hlast, jGetItem, hc, hr, hrun,
      hchain, List.dropLast_concat]
  · intro k hk
    rw [getKey_setKey_ne hk, getKey_removeKey_ne hk]

/-- C7 witness: the amended theorem at a concrete body whose last message
carries an extra `name` key, with one policy applied. -/
theorem pre_json_frame_amended_witness :
    (chat_pre_json (pureRemote execDemo)
        [("model", .str "gpt"),
         ("messages", .arr [.obj [("role", .str "user"),
           ("content", .str "X"), ("name", .str "bob")]])]
        ["anonymize_pii"]).1 =
      .ok (setKey (removeKey [("model", .str "gpt"),
          ("messages", .arr [.obj [("role", .str "user"),
            ("content", .str "X"), ("name", .str "bob")]])] "messages")
        "messages"
        (.arr ([] ++ [.obj [("role", .str "user"),
          ("content", chainPure execDemo ["anonymize_pii"] (.str "X"))]]))) ∧
    getKey (setKey (removeKey [("model", .str "gpt"),
          ("messages", .arr [.obj [("role", .str "user"),
            ("content", .str "X"), ("name", .str "bob")]])] "messages")
        "messages"
        (.arr ([] ++ [.obj [("role", .str "user"),
          ("content", chainPure execDemo ["anonymize_pii"] (.str "X"))]])))
        "messages" =
      some (.arr ([] ++ [.obj [("role", .str "user"),
        ("content", chainPure execDemo ["anonymize_pii"] (.str "X"))]])) ∧
    (∀ k, k ≠ "messages" →
      getKey (setKey (removeKey [("model", .str "gpt"),
            ("messages", .arr [.obj [("role", .str "user"),
              ("content", .str "X"), ("name", .str "bob")]])] "messages")
          "messages"
          (.arr ([] ++ [.obj [("role", .str "user"),
            ("content", chainPure execDemo ["anonymize_pii"] (.str "X"))]])))
          k =
        getKey [("model", .str "gpt"),
          ("messages", .arr [.obj [("role", .str "user"),
            ("content", .str "X"), ("name", .str "bob")]])] k) :=
  pre_json_frame_amended execDemo ["anonymize_pii"] (by decide)
    [("model", .str "gpt"),
     ("messages", .arr [.obj [("role", .str "user"),
       ("content", .str "X"), ("name", .str "bob")]])]
    [] [("role", .str "user"), ("content", .str "X"), ("name", .str "bob")]
    (.str "user") (.str "X") rfl rfl rfl

end Overmind
